import Mathlib

/-!
Verification of the Rio Grande due-diligence demo backend (src/main.py).

The program scores a submitted land parcel against two fixed hazard-zone
rectangles (flood, wildfire) by fractional area overlap, averages the two
pillar scores, and assembles a report with placeholder document URLs.

Embedding choices:
* Coordinates and areas are rational numbers; the Python floats carry exact
  decimal constants and the claims are about exact arithmetic identities.
* The shapely calls geom.area and geom.intersection(zone) are modelled
  concretely: area is the shoelace area of each ring (absolute value, holes
  subtracted, as shapely computes for valid polygons; points and line strings
  have area zero), and intersection against a zone rectangle is
  Sutherland-Hodgman clipping of each ring against the convex zone, which
  agrees with shapely's planar intersection area for valid polygon inputs.
* shapely.geometry.shape is modelled as a total function into Except: a
  recognized GeoJSON type parses, an unrecognized type is an error, matching
  the exception raised by shapely.
* uuid.uuid4() and datetime.utcnow() are nondeterministic inputs of
  generate_report, passed as parameters.
-/

namespace RioGrande

/-- A planar point with rational coordinates (longitude, latitude). -/
structure Pt where
  x : ℚ
  y : ℚ
deriving DecidableEq, Repr

/-- A linear ring: the ordered vertices of a closed boundary
(closure is implicit: the last vertex connects back to the first). -/
abbrev Ring := List Pt

/-- The consecutive edges of a ring, wrapping around from the last vertex
back to the first. -/
def ringEdges (r : Ring) : List (Pt × Pt) :=
  match r with
  | [] => []
  | p :: rest => r.zip (rest ++ [p])

/-- Twice the signed shoelace area of a ring. -/
def shoelace2 (r : Ring) : ℚ :=
  (ringEdges r).foldl (fun acc e => acc + (e.1.x * e.2.y - e.2.x * e.1.y)) 0

/-- Absolute value on rationals, written out so that it evaluates by kernel
reduction. -/
def ratAbs (x : ℚ) : ℚ :=
  if x < 0 then -x else x

/-- The unsigned area enclosed by a ring, as shapely reports it. -/
def ringArea (r : Ring) : ℚ :=
  ratAbs (shoelace2 r) / 2

/-- Cross product of the vectors a->b and a->p: positive when p lies to the
left of the directed line a->b. -/
def cross (a b p : Pt) : ℚ :=
  (b.x - a.x) * (p.y - a.y) - (b.y - a.y) * (p.x - a.x)

/-- The point where segment s->e meets the line through a->b, computed
parametrically (only used on edges that straddle the line, where the
denominator is nonzero). -/
def lineInter (a b s e : Pt) : Pt :=
  let d1 := cross a b s
  let d2 := cross a b e
  let t := d1 / (d1 - d2)
  ⟨s.x + t * (e.x - s.x), s.y + t * (e.y - s.y)⟩

/-- One Sutherland-Hodgman pass: clip a subject ring by the half-plane on the
interior side of the clip edge a->b (sgn is +1 for a counterclockwise clip
ring, -1 for clockwise). -/
def clipHalf (sgn : ℚ) (a b : Pt) (subject : Ring) : Ring :=
  (ringEdges subject).foldl
    (fun out e =>
      if 0 ≤ sgn * cross a b e.2 then
        if 0 ≤ sgn * cross a b e.1 then out ++ [e.2]
        else out ++ [lineInter a b e.1 e.2, e.2]
      else
        if 0 ≤ sgn * cross a b e.1 then out ++ [lineInter a b e.1 e.2]
        else out)
    []

/-- Sutherland-Hodgman clipping of a ring against a convex clip ring:
successively clip by the half-plane of each clip edge. -/
def clipRing (clip subject : Ring) : Ring :=
  let sgn : ℚ := if 0 ≤ shoelace2 clip then 1 else -1
  (ringEdges clip).foldl (fun subj e => clipHalf sgn e.1 e.2 subj) subject

/-- A parsed geometry, the shapes shapely.geometry.shape can return for the
GeoJSON inputs this service sees. A polygon is a list of rings: the first is
the exterior boundary, the rest are holes. -/
inductive Geom where
  | point (p : Pt)
  | lineString (ps : List Pt)
  | polygon (rings : List Ring)
  | multiPolygon (polys : List (List Ring))
deriving DecidableEq, Repr

/-- Area of one polygon given as exterior ring plus holes: exterior area
minus hole areas, as shapely computes for a valid polygon. -/
def polyArea (rings : List Ring) : ℚ :=
  match rings with
  | [] => 0
  | ext :: holes => ringArea ext - (holes.map ringArea).sum

/-- geom.area in shapely: points and line strings have zero area; polygons
subtract their holes; a multipolygon sums its parts. -/
def Geom.area : Geom → ℚ
  | .point _ => 0
  | .lineString _ => 0
  | .polygon rings => polyArea rings
  | .multiPolygon polys => (polys.map polyArea).sum

/-- geom.intersection(zone) for a convex zone ring: zero-dimensional results
are an empty polygon; each ring of a polygonal geometry is clipped against
the zone. -/
def Geom.intersection (g : Geom) (zone : Ring) : Geom :=
  match g with
  | .point _ => .polygon []
  | .lineString _ => .polygon []
  | .polygon rings => .polygon (rings.map (clipRing zone))
  | .multiPolygon polys => .multiPolygon (polys.map (fun rs => rs.map (clipRing zone)))

/-- The fixed flood-zone rectangle defined inside compute_flood_risk. -/
def flood_zone : Ring :=
  [⟨-106.5, 34.5⟩, ⟨-106.5, 36.5⟩, ⟨-104.5, 36.5⟩, ⟨-104.5, 34.5⟩]

/-- The fixed wildfire-zone rectangle defined inside compute_wildfire_risk. -/
def wildfire_zone : Ring :=
  [⟨-107.0, 35.0⟩, ⟨-107.0, 37.0⟩, ⟨-105.0, 37.0⟩, ⟨-105.0, 35.0⟩]

/-- The details dictionary of a pillar: an association list of field name to
numeric value, mirroring the Python dict literal (insertion order kept). -/
abbrev Details := List (String × ℚ)

/-- compute_flood_risk from src/main.py: intersect the parcel with the flood
zone, divide areas with a zero-area guard, scale to 0..100, and return the
score with a three-entry details dictionary. -/
def compute_flood_risk (geom : Geom) : ℚ × Details :=
  let inter_area := (geom.intersection flood_zone).area
  let parcel_area := geom.area
  let fraction := if parcel_area > 0 then inter_area / parcel_area else 0
  let score := fraction * 100
  (score,
    [("intersection_area", inter_area),
     ("parcel_area", parcel_area),
     ("fraction_in_flood_zone", fraction)])

/-- compute_wildfire_risk from src/main.py: same computation against the
wildfire zone, with the fraction reported under its own key. -/
def compute_wildfire_risk (geom : Geom) : ℚ × Details :=
  let inter_area := (geom.intersection wildfire_zone).area
  let parcel_area := geom.area
  let fraction := if parcel_area > 0 then inter_area / parcel_area else 0
  let score := fraction * 100
  (score,
    [("intersection_area", inter_area),
     ("parcel_area", parcel_area),
     ("fraction_in_wildfire_zone", fraction)])

/-- The PillarScore model of src/main.py. -/
structure PillarScore where
  name : String
  score : ℚ
  details : Details
deriving DecidableEq, Repr

/-- calculate_overall_score from src/main.py: 0 on an empty list, otherwise
the arithmetic mean of the pillar scores. -/
def calculate_overall_score (pillars : List PillarScore) : ℚ :=
  if pillars = [] then 0
  else (pillars.map PillarScore.score).sum / pillars.length

/-- The raw geometry field of a request body: a GeoJSON geometry object,
tagged by its type string. unknownType covers any type tag that is not a
recognized GeoJSON geometry type. -/
inductive RawGeometry where
  | point (p : Pt)
  | lineString (ps : List Pt)
  | polygon (rings : List Ring)
  | multiPolygon (polys : List (List Ring))
  | unknownType (tag : String)
deriving DecidableEq, Repr

/-- shapely.geometry.shape: convert a GeoJSON geometry object into a
geometry, raising (modelled as Except.error) on an unrecognized type tag. -/
def shape : RawGeometry → Except String Geom
  | .point p => .ok (.point p)
  | .lineString ps => .ok (.lineString ps)
  | .polygon rings => .ok (.polygon rings)
  | .multiPolygon polys => .ok (.multiPolygon polys)
  | .unknownType tag => .error ("Unknown geometry type: " ++ tag)

/-- The GenerateReportResponse model of src/main.py. -/
structure GenerateReportResponse where
  report_id : String
  created_at : String
  overall_risk_score : ℚ
  pillars : List PillarScore
  pdf_url : String
  kmz_url : String
deriving DecidableEq, Repr

/-- generate_report from src/main.py. The fresh UUID string and the current
UTC timestamp string are nondeterministic effects, passed in as report_id
and created_at. A parse failure raises ValueError with the underlying cause
appended, modelled as Except.error; otherwise both pillars are scored, the
overall score is their mean, and the response embeds the report id in the
two placeholder document URLs. -/
def generate_report (report_id created_at : String) (geometry : RawGeometry) :
    Except String GenerateReportResponse :=
  match shape geometry with
  | .error e => .error ("Invalid geometry: " ++ e)
  | .ok geom =>
    let flood := compute_flood_risk geom
    let wildfire := compute_wildfire_risk geom
    let pillars : List PillarScore :=
      [⟨"Flood Risk", flood.1, flood.2⟩,
       ⟨"Wildfire Risk", wildfire.1, wildfire.2⟩]
    let overall := calculate_overall_score pillars
    let pdf_url := "https://demo.example.com/reports/" ++ report_id ++ ".pdf"
    let kmz_url := "https://demo.example.com/reports/" ++ report_id ++ ".kmz"
    .ok ⟨report_id, created_at, overall, pillars, pdf_url, kmz_url⟩

/-! Concrete inputs used by the spec's scenarios. -/

/-- The parcel equal to the flood-zone rectangle (concrete spec scenario). -/
def floodRectParcel : Geom := .polygon [flood_zone]

/-- The unit square with corners (0,0), (0,1), (1,1), (1,0), far from both
zones (concrete spec scenario). -/
def unitSquareParcel : Geom :=
  .polygon [[⟨0, 0⟩, ⟨0, 1⟩, ⟨1, 1⟩, ⟨1, 0⟩]]

/-- The unit square as a raw GeoJSON geometry object. -/
def unitSquareRaw : RawGeometry :=
  .polygon [[⟨0, 0⟩, ⟨0, 1⟩, ⟨1, 1⟩, ⟨1, 0⟩]]

/-- A degenerate zero-area parcel: a ring of three coincident vertices. -/
def degenerateParcel : Geom := .polygon [[⟨0, 0⟩, ⟨0, 0⟩, ⟨0, 0⟩]]

/-- The report produced for the unit-square request with id RID and
timestamp TS. -/
def unitSquareReport : GenerateReportResponse :=
  ⟨"RID", "TS", 0,
   [⟨"Flood Risk", 0,
     [("intersection_area", 0), ("parcel_area", 1), ("fraction_in_flood_zone", 0)]⟩,
    ⟨"Wildfire Risk", 0,
     [("intersection_area", 0), ("parcel_area", 1), ("fraction_in_wildfire_zone", 0)]⟩],
   "https://demo.example.com/reports/RID.pdf",
   "https://demo.example.com/reports/RID.kmz"⟩

/-! Concrete evaluations of the geometric model, proved by unfolding the
clipping and area computations on the given coordinates. -/

lemma unitSquare_area : unitSquareParcel.area = 1 := by
  norm_num [unitSquareParcel, Geom.area, polyArea, ringArea, shoelace2, ringEdges, ratAbs,
    List.zip_cons_cons, List.zip_nil_right, List.zip_nil_left,
    List.foldl_cons, List.foldl_nil]

lemma unitSquare_inter_flood : (unitSquareParcel.intersection flood_zone).area = 0 := by
  norm_num [unitSquareParcel, flood_zone, Geom.intersection, Geom.area, polyArea, clipRing,
    clipHalf, ringEdges, ringArea, shoelace2, cross, lineInter, ratAbs,
    List.zip_cons_cons, List.zip_nil_right, List.zip_nil_left,
    List.foldl_cons, List.foldl_nil]

lemma unitSquare_inter_wild : (unitSquareParcel.intersection wildfire_zone).area = 0 := by
  norm_num [unitSquareParcel, wildfire_zone, Geom.intersection, Geom.area, polyArea, clipRing,
    clipHalf, ringEdges, ringArea, shoelace2, cross, lineInter, ratAbs,
    List.zip_cons_cons, List.zip_nil_right, List.zip_nil_left,
    List.foldl_cons, List.foldl_nil]

lemma floodRect_area : floodRectParcel.area = 4 := by
  norm_num [floodRectParcel, flood_zone, Geom.area, polyArea, ringArea, shoelace2, ringEdges,
    ratAbs, List.zip_cons_cons, List.zip_nil_right, List.zip_nil_left,
    List.foldl_cons, List.foldl_nil]

lemma floodRect_inter_flood : (floodRectParcel.intersection flood_zone).area = 4 := by
  norm_num [floodRectParcel, flood_zone, Geom.intersection, Geom.area, polyArea, clipRing,
    clipHalf, ringEdges, ringArea, shoelace2, cross, lineInter, ratAbs,
    List.zip_cons_cons, List.zip_nil_right, List.zip_nil_left,
    List.foldl_cons, List.foldl_nil]

lemma floodRect_inter_wild : (floodRectParcel.intersection wildfire_zone).area = 9 / 4 := by
  norm_num [floodRectParcel, flood_zone, wildfire_zone, Geom.intersection, Geom.area, polyArea,
    clipRing, clipHalf, ringEdges, ringArea, shoelace2, cross, lineInter, ratAbs,
    List.zip_cons_cons, List.zip_nil_right, List.zip_nil_left,
    List.foldl_cons, List.foldl_nil]

lemma degenerate_area : degenerateParcel.area = 0 := by
  norm_num [degenerateParcel, Geom.area, polyArea, ringArea, shoelace2, ringEdges, ratAbs,
    List.zip_cons_cons, List.zip_nil_right, List.zip_nil_left,
    List.foldl_cons, List.foldl_nil]

lemma compute_flood_floodRect :
    compute_flood_risk floodRectParcel =
      (100, [("intersection_area", 4), ("parcel_area", 4), ("fraction_in_flood_zone", 1)]) := by
  show ((if floodRectParcel.area > 0
          then (floodRectParcel.intersection flood_zone).area / floodRectParcel.area else 0) * 100,
    [("intersection_area", (floodRectParcel.intersection flood_zone).area),
     ("parcel_area", floodRectParcel.area),
     ("fraction_in_flood_zone",
      if floodRectParcel.area > 0
        then (floodRectParcel.intersection flood_zone).area / floodRectParcel.area else 0)]) = _
  rw [floodRect_inter_flood, floodRect_area]
  norm_num

lemma compute_flood_unitSquare :
    compute_flood_risk unitSquareParcel =
      (0, [("intersection_area", 0), ("parcel_area", 1), ("fraction_in_flood_zone", 0)]) := by
  show ((if unitSquareParcel.area > 0
          then (unitSquareParcel.intersection flood_zone).area / unitSquareParcel.area else 0) * 100,
    [("intersection_area", (unitSquareParcel.intersection flood_zone).area),
     ("parcel_area", unitSquareParcel.area),
     ("fraction_in_flood_zone",
      if unitSquareParcel.area > 0
        then (unitSquareParcel.intersection flood_zone).area / unitSquareParcel.area else 0)]) = _
  rw [unitSquare_inter_flood, unitSquare_area]
  norm_num

lemma compute_wild_unitSquare :
    compute_wildfire_risk unitSquareParcel =
      (0, [("intersection_area", 0), ("parcel_area", 1), ("fraction_in_wildfire_zone", 0)]) := by
  show ((if unitSquareParcel.area > 0
          then (unitSquareParcel.intersection wildfire_zone).area / unitSquareParcel.area else 0) * 100,
    [("intersection_area", (unitSquareParcel.intersection wildfire_zone).area),
     ("parcel_area", unitSquareParcel.area),
     ("fraction_in_wildfire_zone",
      if unitSquareParcel.area > 0
        then (unitSquareParcel.intersection wildfire_zone).area / unitSquareParcel.area else 0)]) = _
  rw [unitSquare_inter_wild, unitSquare_area]
  norm_num

lemma generate_report_unitSquare :
    generate_report "RID" "TS" unitSquareRaw = .ok unitSquareReport := by
  have hs : shape unitSquareRaw = .ok unitSquareParcel := rfl
  simp only [generate_report, hs, compute_flood_unitSquare, compute_wild_unitSquare]
  rw [calculate_overall_score, if_neg (List.cons_ne_nil _ _)]
  norm_num [unitSquareReport]
  exact ⟨rfl, rfl⟩

/-- The guarded fraction of the scorers, as an arithmetic fact: whenever the
intersection area is between 0 and the parcel area, the scaled fraction lies
in the interval from 0 to 100. -/
lemma fraction_score_bounds (ia pa : ℚ) (h0 : 0 ≤ ia) (h1 : ia ≤ pa) :
    0 ≤ (if pa > 0 then ia / pa else 0) * 100 ∧
      (if pa > 0 then ia / pa else 0) * 100 ≤ 100 := by
  by_cases h : pa > 0
  · rw [if_pos h]
    have hnn : 0 ≤ ia / pa := div_nonneg h0 h.le
    have hle : ia / pa ≤ 1 := (div_le_one h).mpr h1
    constructor <;> nlinarith
  · rw [if_neg h]
    norm_num

/-- C1: for every parcel geometry and each pillar, the scorer computes the
guarded fraction (intersection area over parcel area when the parcel area is
positive, 0 otherwise), returns that fraction times 100 as the score, and
returns a details mapping with exactly the keys intersection_area,
parcel_area, and the pillar-specific fraction key, bound to those computed
values. -/
theorem c1_scorer_formula_and_details (g : Geom) :
    compute_flood_risk g =
      ((if g.area > 0 then (g.intersection flood_zone).area / g.area else 0) * 100,
       [("intersection_area", (g.intersection flood_zone).area),
        ("parcel_area", g.area),
        ("fraction_in_flood_zone",
         if g.area > 0 then (g.intersection flood_zone).area / g.area else 0)]) ∧
    compute_wildfire_risk g =
      ((if g.area > 0 then (g.intersection wildfire_zone).area / g.area else 0) * 100,
       [("intersection_area", (g.intersection wildfire_zone).area),
        ("parcel_area", g.area),
        ("fraction_in_wildfire_zone",
         if g.area > 0 then (g.intersection wildfire_zone).area / g.area else 0)]) :=
  ⟨rfl, rfl⟩

/-- C2: for every parcel whose intersection with each zone has an area
between 0 and the parcel area (the geometric property of a valid,
non-self-intersecting polygon under a proper planar intersection), both
pillar scores lie between 0 and 100. -/
theorem c2_scores_within_bounds (g : Geom)
    (hf0 : 0 ≤ (g.intersection flood_zone).area)
    (hf1 : (g.intersection flood_zone).area ≤ g.area)
    (hw0 : 0 ≤ (g.intersection wildfire_zone).area)
    (hw1 : (g.intersection wildfire_zone).area ≤ g.area) :
    (0 ≤ (compute_flood_risk g).1 ∧ (compute_flood_risk g).1 ≤ 100) ∧
    (0 ≤ (compute_wildfire_risk g).1 ∧ (compute_wildfire_risk g).1 ≤ 100) :=
  ⟨fraction_score_bounds _ _ hf0 hf1, fraction_score_bounds _ _ hw0 hw1⟩

/-- Witness for C2 at the flood-zone rectangle parcel. -/
theorem c2_scores_within_bounds_witness :
    (0 ≤ (compute_flood_risk floodRectParcel).1 ∧
      (compute_flood_risk floodRectParcel).1 ≤ 100) ∧
    (0 ≤ (compute_wildfire_risk floodRectParcel).1 ∧
      (compute_wildfire_risk floodRectParcel).1 ≤ 100) :=
  c2_scores_within_bounds floodRectParcel
    (by rw [floodRect_inter_flood]; norm_num)
    (by rw [floodRect_inter_flood, floodRect_area])
    (by rw [floodRect_inter_wild]; norm_num)
    (by rw [floodRect_inter_wild, floodRect_area]; norm_num)

/-- C3: calculate_overall_score returns 0 on an empty pillar list and the
arithmetic mean on a non-empty one; consequently the overall risk score of
every generated report equals the mean of its pillar scores. -/
theorem c3_overall_is_mean :
    calculate_overall_score [] = 0 ∧
    (∀ ps : List PillarScore, ps ≠ [] →
      calculate_overall_score ps = (ps.map PillarScore.score).sum / ps.length) ∧
    (∀ (rid cat : String) (raw : RawGeometry) (r : GenerateReportResponse),
      generate_report rid cat raw = .ok r →
      r.overall_risk_score = (r.pillars.map PillarScore.score).sum / r.pillars.length) := by
  refine ⟨rfl, fun ps hps => ?_, fun rid cat raw r h => ?_⟩
  · rw [calculate_overall_score, if_neg hps]
  · rcases hs : shape raw with e | g
    · simp only [generate_report, hs] at h
      exact Except.noConfusion h
    · simp only [generate_report, hs, Except.ok.injEq] at h
      subst h
      dsimp only
      rw [calculate_overall_score, if_neg (List.cons_ne_nil _ _)]

/-- Witness for C3: a concrete two-pillar list and a concrete report. -/
theorem c3_overall_is_mean_witness :
    calculate_overall_score
        [⟨"Flood Risk", 10, []⟩, ⟨"Wildfire Risk", 30, []⟩] =
      (([⟨"Flood Risk", 10, []⟩, ⟨"Wildfire Risk", 30, []⟩] :
          List PillarScore).map PillarScore.score).sum /
        ([⟨"Flood Risk", 10, []⟩, ⟨"Wildfire Risk", 30, []⟩] : List PillarScore).length ∧
    unitSquareReport.overall_risk_score =
      (unitSquareReport.pillars.map PillarScore.score).sum / unitSquareReport.pillars.length :=
  ⟨c3_overall_is_mean.2.1 _ (by simp),
   c3_overall_is_mean.2.2 "RID" "TS" unitSquareRaw unitSquareReport generate_report_unitSquare⟩

/-- C4: when the raw geometry cannot be parsed, generate_report fails with an
invalid-geometry error whose message appends the underlying cause, and no
report is returned; the error is produced by the parse branch, before either
scorer runs. -/
theorem c4_invalid_geometry_rejected (rid cat : String) (raw : RawGeometry) (e : String)
    (h : shape raw = .error e) :
    generate_report rid cat raw = .error ("Invalid geometry: " ++ e) ∧
    ∀ r : GenerateReportResponse, generate_report rid cat raw ≠ .ok r := by
  have hgen : generate_report rid cat raw = .error ("Invalid geometry: " ++ e) := by
    simp only [generate_report, h]
  exact ⟨hgen, fun r hc => by rw [hgen] at hc; cases hc⟩

/-- Witness for C4 at the geometry type tag NotAShape. -/
theorem c4_invalid_geometry_rejected_witness :
    generate_report "RID" "TS" (.unknownType "NotAShape") =
      .error ("Invalid geometry: " ++ "Unknown geometry type: NotAShape") ∧
    ∀ r : GenerateReportResponse,
      generate_report "RID" "TS" (.unknownType "NotAShape") ≠ .ok r :=
  c4_invalid_geometry_rejected "RID" "TS" (.unknownType "NotAShape")
    "Unknown geometry type: NotAShape" rfl

/-- C5: for every zero-area parcel, both scorers return score 0 with
fraction 0 (the division is guarded by the positivity test), and being total
functions they raise nothing. -/
theorem c5_zero_area_guard (g : Geom) (h : g.area = 0) :
    compute_flood_risk g =
      (0, [("intersection_area", (g.intersection flood_zone).area),
           ("parcel_area", 0),
           ("fraction_in_flood_zone", 0)]) ∧
    compute_wildfire_risk g =
      (0, [("intersection_area", (g.intersection wildfire_zone).area),
           ("parcel_area", 0),
           ("fraction_in_wildfire_zone", 0)]) := by
  have hng : ¬ g.area > 0 := by rw [h]; norm_num
  constructor
  · show ((if g.area > 0 then _ / g.area else 0) * 100,
      [_, ("parcel_area", g.area), ("fraction_in_flood_zone",
        if g.area > 0 then _ / g.area else 0)]) = _
    rw [if_neg hng, h]
    norm_num
  · show ((if g.area > 0 then _ / g.area else 0) * 100,
      [_, ("parcel_area", g.area), ("fraction_in_wildfire_zone",
        if g.area > 0 then _ / g.area else 0)]) = _
    rw [if_neg hng, h]
    norm_num

/-- Witness for C5 at the degenerate three-coincident-vertex parcel. -/
theorem c5_zero_area_guard_witness :
    compute_flood_risk degenerateParcel =
      (0, [("intersection_area", (degenerateParcel.intersection flood_zone).area),
           ("parcel_area", 0),
           ("fraction_in_flood_zone", 0)]) ∧
    compute_wildfire_risk degenerateParcel =
      (0, [("intersection_area", (degenerateParcel.intersection wildfire_zone).area),
           ("parcel_area", 0),
           ("fraction_in_wildfire_zone", 0)]) :=
  c5_zero_area_guard degenerateParcel degenerate_area

/-- C6: a positive-area parcel whose intersection with a zone has the full
parcel area (a parcel lying entirely inside that zone) scores exactly 100
with fraction 1 on that pillar; in particular, the parcel equal to the
flood-zone rectangle scores 100 on flood risk with fraction 1. -/
theorem c6_full_overlap_scores_100 (g : Geom) (hpos : 0 < g.area) :
    ((g.intersection flood_zone).area = g.area →
      compute_flood_risk g =
        (100, [("intersection_area", g.area),
               ("parcel_area", g.area),
               ("fraction_in_flood_zone", 1)])) ∧
    ((g.intersection wildfire_zone).area = g.area →
      compute_wildfire_risk g =
        (100, [("intersection_area", g.area),
               ("parcel_area", g.area),
               ("fraction_in_wildfire_zone", 1)])) ∧
    compute_flood_risk floodRectParcel =
      (100, [("intersection_area", 4),
             ("parcel_area", 4),
             ("fraction_in_flood_zone", 1)]) := by
  refine ⟨fun hin => ?_, fun hin => ?_, compute_flood_floodRect⟩
  · show ((if g.area > 0 then (g.intersection flood_zone).area / g.area else 0) * 100,
      [("intersection_area", (g.intersection flood_zone).area),
       ("parcel_area", g.area),
       ("fraction_in_flood_zone",
        if g.area > 0 then (g.intersection flood_zone).area / g.area else 0)]) = _
    rw [hin, if_pos hpos, div_self (ne_of_gt hpos)]
    norm_num
  · show ((if g.area > 0 then (g.intersection wildfire_zone).area / g.area else 0) * 100,
      [("intersection_area", (g.intersection wildfire_zone).area),
       ("parcel_area", g.area),
       ("fraction_in_wildfire_zone",
        if g.area > 0 then (g.intersection wildfire_zone).area / g.area else 0)]) = _
    rw [hin, if_pos hpos, div_self (ne_of_gt hpos)]
    norm_num

/-- Witness for C6 at the flood-zone rectangle parcel. -/
theorem c6_full_overlap_scores_100_witness :
    compute_flood_risk floodRectParcel =
      (100, [("intersection_area", floodRectParcel.area),
             ("parcel_area", floodRectParcel.area),
             ("fraction_in_flood_zone", 1)]) :=
  (c6_full_overlap_scores_100 floodRectParcel (by rw [floodRect_area]; norm_num)).1
    (by rw [floodRect_inter_flood, floodRect_area])

/-- C7: a parcel whose intersections with both zones have zero area (a parcel
disjoint from both zones) scores 0 on both pillars, and the report generated
from it has overall risk score 0. -/
theorem c7_disjoint_scores_zero (rid cat : String) (raw : RawGeometry) (g : Geom)
    (hg : shape raw = .ok g)
    (hf : (g.intersection flood_zone).area = 0)
    (hw : (g.intersection wildfire_zone).area = 0) :
    (compute_flood_risk g).1 = 0 ∧ (compute_wildfire_risk g).1 = 0 ∧
    ∃ r : GenerateReportResponse,
      generate_report rid cat raw = .ok r ∧ r.overall_risk_score = 0 := by
  have hfs : (compute_flood_risk g).1 = 0 := by
    show (if g.area > 0 then (g.intersection flood_zone).area / g.area else 0) * 100 = 0
    rw [hf]
    by_cases h : g.area > 0 <;> simp [h]
  have hws : (compute_wildfire_risk g).1 = 0 := by
    show (if g.area > 0 then (g.intersection wildfire_zone).area / g.area else 0) * 100 = 0
    rw [hw]
    by_cases h : g.area > 0 <;> simp [h]
  refine ⟨hfs, hws,
    ⟨rid, cat,
      calculate_overall_score
        [⟨"Flood Risk", (compute_flood_risk g).1, (compute_flood_risk g).2⟩,
         ⟨"Wildfire Risk", (compute_wildfire_risk g).1, (compute_wildfire_risk g).2⟩],
      [⟨"Flood Risk", (compute_flood_risk g).1, (compute_flood_risk g).2⟩,
       ⟨"Wildfire Risk", (compute_wildfire_risk g).1, (compute_wildfire_risk g).2⟩],
      "https://demo.example.com/reports/" ++ rid ++ ".pdf",
      "https://demo.example.com/reports/" ++ rid ++ ".kmz"⟩, ?_, ?_⟩
  · simp only [generate_report, hg]
  · dsimp only
    rw [calculate_overall_score, if_neg (List.cons_ne_nil _ _)]
    simp [hfs, hws]

/-- Witness for C7 at the unit square, which is disjoint from both zones. -/
theorem c7_disjoint_scores_zero_witness :
    (compute_flood_risk unitSquareParcel).1 = 0 ∧
    (compute_wildfire_risk unitSquareParcel).1 = 0 ∧
    ∃ r : GenerateReportResponse,
      generate_report "RID" "TS" unitSquareRaw = .ok r ∧ r.overall_risk_score = 0 :=
  c7_disjoint_scores_zero "RID" "TS" unitSquareRaw unitSquareParcel rfl
    unitSquare_inter_flood unitSquare_inter_wild

/-- C8: every successfully generated report has exactly two pillars, named
Flood Risk then Wildfire Risk, in that order. -/
theorem c8_pillar_order (rid cat : String) (raw : RawGeometry) (r : GenerateReportResponse)
    (h : generate_report rid cat raw = .ok r) :
    r.pillars.length = 2 ∧
    r.pillars.map PillarScore.name = ["Flood Risk", "Wildfire Risk"] := by
  rcases hs : shape raw with e | g
  · simp only [generate_report, hs] at h
    exact Except.noConfusion h
  · simp only [generate_report, hs, Except.ok.injEq] at h
    subst h
    exact ⟨rfl, rfl⟩

/-- Witness for C8 at the unit-square request. -/
theorem c8_pillar_order_witness :
    unitSquareReport.pillars.length = 2 ∧
    unitSquareReport.pillars.map PillarScore.name = ["Flood Risk", "Wildfire Risk"] :=
  c8_pillar_order "RID" "TS" unitSquareRaw unitSquareReport generate_report_unitSquare

/-- C9: in every successfully generated report, the PDF and KMZ document
URLs are exactly the placeholder base followed by the report id and the
respective extension; hence each URL contains the report id and ends in the
extension. -/
theorem c9_url_format (rid cat : String) (raw : RawGeometry) (r : GenerateReportResponse)
    (h : generate_report rid cat raw = .ok r) :
    r.pdf_url = "https://demo.example.com/reports/" ++ r.report_id ++ ".pdf" ∧
    r.kmz_url = "https://demo.example.com/reports/" ++ r.report_id ++ ".kmz" ∧
    (∃ a b, r.pdf_url = a ++ r.report_id ++ b) ∧
    (∃ s, r.pdf_url = s ++ ".pdf") ∧
    (∃ a b, r.kmz_url = a ++ r.report_id ++ b) ∧
    (∃ s, r.kmz_url = s ++ ".kmz") := by
  rcases hs : shape raw with e | g
  · simp only [generate_report, hs] at h
    exact Except.noConfusion h
  · simp only [generate_report, hs, Except.ok.injEq] at h
    subst h
    exact ⟨rfl, rfl,
      ⟨"https://demo.example.com/reports/", ".pdf", rfl⟩,
      ⟨"https://demo.example.com/reports/" ++ rid, rfl⟩,
      ⟨"https://demo.example.com/reports/", ".kmz", rfl⟩,
      ⟨"https://demo.example.com/reports/" ++ rid, rfl⟩⟩

/-- Witness for C9 at the unit-square request. -/
theorem c9_url_format_witness :
    unitSquareReport.pdf_url =
      "https://demo.example.com/reports/" ++ unitSquareReport.report_id ++ ".pdf" ∧
    unitSquareReport.kmz_url =
      "https://demo.example.com/reports/" ++ unitSquareReport.report_id ++ ".kmz" ∧
    (∃ a b, unitSquareReport.pdf_url = a ++ unitSquareReport.report_id ++ b) ∧
    (∃ s, unitSquareReport.pdf_url = s ++ ".pdf") ∧
    (∃ a b, unitSquareReport.kmz_url = a ++ unitSquareReport.report_id ++ b) ∧
    (∃ s, unitSquareReport.kmz_url = s ++ ".kmz") :=
  c9_url_format "RID" "TS" unitSquareRaw unitSquareReport generate_report_unitSquare

/-- C10: a well-formed GeoJSON geometry that is not polygonal (a point or a
line string) is not rejected: it parses, has zero area, the guard yields
fraction 0, and a complete report is returned with both pillar scores 0 and
overall risk score 0. -/
theorem c10_non_polygonal_accepted (rid cat : String) (p : Pt) (ps : List Pt) :
    (∃ r : GenerateReportResponse,
      generate_report rid cat (.point p) = .ok r ∧
      r.overall_risk_score = 0 ∧
      r.pillars.map PillarScore.score = [0, 0]) ∧
    (∃ r : GenerateReportResponse,
      generate_report rid cat (.lineString ps) = .ok r ∧
      r.overall_risk_score = 0 ∧
      r.pillars.map PillarScore.score = [0, 0]) := by
  have hfp : (compute_flood_risk (Geom.point p)).1 = 0 := by
    show (if (Geom.point p).area > 0
      then ((Geom.point p).intersection flood_zone).area / (Geom.point p).area else 0) * 100 = 0
    norm_num [Geom.area]
  have hwp : (compute_wildfire_risk (Geom.point p)).1 = 0 := by
    show (if (Geom.point p).area > 0
      then ((Geom.point p).intersection wildfire_zone).area / (Geom.point p).area else 0) * 100 = 0
    norm_num [Geom.area]
  have hfl : (compute_flood_risk (Geom.lineString ps)).1 = 0 := by
    show (if (Geom.lineString ps).area > 0
      then ((Geom.lineString ps).intersection flood_zone).area / (Geom.lineString ps).area
      else 0) * 100 = 0
    norm_num [Geom.area]
  have hwl : (compute_wildfire_risk (Geom.lineString ps)).1 = 0 := by
    show (if (Geom.lineString ps).area > 0
      then ((Geom.lineString ps).intersection wildfire_zone).area / (Geom.lineString ps).area
      else 0) * 100 = 0
    norm_num [Geom.area]
  constructor
  · refine ⟨_, rfl, ?_, ?_⟩
    · dsimp only
      rw [calculate_overall_score, if_neg (List.cons_ne_nil _ _)]
      simp [hfp, hwp]
    · dsimp only
      simp [hfp, hwp]
  · refine ⟨_, rfl, ?_, ?_⟩
    · dsimp only
      rw [calculate_overall_score, if_neg (List.cons_ne_nil _ _)]
      simp [hfl, hwl]
    · dsimp only
      simp [hfl, hwl]

end RioGrande
